import Mathlib

/-!
Verification of the siso collector-supervisor (siso.py).

Shallow embedding of the collector-lifecycle logic of `siso.py`:

* `_resolve_sockets_folder` and the socket-file derivation of
  `_handle_collector_args` (endpoint resolution, 104-byte budget);
* `collector_status` (health classification);
* `_kill_collector` (PID selection of the process reaper);
* `_start_collector` (the probe, reap, cleanup, spawn, poll state
  machine), modelled as a function of an oracle world that fixes the
  outcome of every external observation the Python code makes
  (sub-command presence, each HTTP health probe, kill success, socket-file
  existence, removal success, and the number of polling iterations the
  wall-clock deadline admits).  The function also returns the trace of
  externally visible events (probes, kill and remove attempts, spawn), so
  that ordering and counting properties can be stated.
* `_handle_collector_args` (argument rewriting around supervision).

Python strings are modelled as Lean strings (Python `len` counts code
points, as does `String.length`); `os.path.join` of relative, non-empty
components is plain `/`-separated concatenation; the Python slice
`s[:k]` (including its negative-index semantics) is `pySliceTo`.
-/

/-! ## Definitions: endpoint resolution -/

/-- Embedding of `os.path.join a b` for a relative non-empty second
component. -/
def pyJoin (a b : String) : String := a ++ "/" ++ b

/-- Embedding of the Python slice `s[:k]`: for `k ≥ 0` the first `k`
characters, for `k < 0` all but the last `-k` characters (empty when
`-k` is at least the length). -/
def pySliceTo (s : String) (k : Int) : String :=
  if 0 ≤ k then ⟨s.data.take k.toNat⟩
  else ⟨s.data.take ((s.data.length : Int) + k).toNat⟩

/-- Embedding of `_resolve_sockets_folder` (siso.py:314-330): joins the
base runtime directory with the user name and `"siso"`, computes
`allowed_length = 104 - len(path) - 6`, and falls back to a `/tmp`-based
path (recomputing `allowed_length`) when `allowed_length < 1`.  The
`os.makedirs` side effect carries no data and is tracked separately by
`_handle_collector_args`. -/
def _resolve_sockets_folder (base user : String) : String × Int :=
  let path := pyJoin (pyJoin base user) "siso"
  let allowed_length : Int := 104 - (path.length : Int) - 6
  if allowed_length < 1 then
    let path2 := pyJoin (pyJoin "/tmp" user) "siso"
    (path2, 104 - (path2.length : Int) - 6)
  else
    (path, allowed_length)

/-- Embedding of the socket file derived in `_handle_collector_args`
(siso.py:349-350): the resolver path joined with the project name
truncated to the remaining length, suffixed `.sock`. -/
def socketsFileFor (base user project : String) : String :=
  let r := _resolve_sockets_folder base user
  pyJoin r.1 (pySliceTo project r.2 ++ ".sock")

/-- Embedding of `_OTLP_DEFAULT_TCP_ENDPOINT` (siso.py:31). -/
def _OTLP_DEFAULT_TCP_ENDPOINT : String := "127.0.0.1:4317"

/-! ## Definitions: health classification -/

/-- The four-valued health verdict `Status` of `_start_collector`
(siso.py:139-143).  The enum has exactly these constructors. -/
inductive Status where
  | HEALTHY
  | WRONG_ENDPOINT
  | UNHEALTHY
  | DEAD
deriving DecidableEq, Repr

/-- The outcome of the health-status request: either the connection
fails (`ConnectionError`), or a response arrives with an HTTP status
code and a parsed JSON body carrying `healthy` and `status`. -/
inductive HealthResp where
  | noConn
  | resp (httpStatus : Nat) (healthy : Bool) (statusStr : String)
deriving DecidableEq, Repr

/-- Embedding of the Python expression `a or b` on an optional string:
`None` and the empty string are falsy and select the default. -/
def pyOrStr (o : Option String) (d : String) : String :=
  match o with
  | none => d
  | some s => if s = "" then d else s

/-- Embedding of `collector_status` (siso.py:145-165) as a function of
the status response, the receiver endpoint extracted from the config
response (the empty string when extraction hits a `KeyError`), and the
closed-over `sockets_file`.  A connection error or non-200 status is
`DEAD`; a not-healthy payload is `UNHEALTHY`; a receiver endpoint
differing from `sockets_file or _OTLP_DEFAULT_TCP_ENDPOINT` is
`WRONG_ENDPOINT`; otherwise `HEALTHY`.  Note: no input describes the
on-disk state — the function performs no disk check. -/
def collector_status (statusResp : HealthResp) (receiverEndpoint : String)
    (sockets_file : Option String) : Status :=
  match statusResp with
  | .noConn => Status.DEAD
  | .resp httpStatus healthy statusStr =>
    if httpStatus ≠ 200 then Status.DEAD
    else if healthy = false ∨ statusStr ≠ "StatusOK" then Status.UNHEALTHY
    else if receiverEndpoint ≠ pyOrStr sockets_file _OTLP_DEFAULT_TCP_ENDPOINT then
      Status.WRONG_ENDPOINT
    else Status.HEALTHY

/-! ## Definitions: the supervisor state machine -/

/-- The externally visible actions `_start_collector` can take, in
order: a health probe with its verdict, a `_kill_collector` call with its
result, an `os.remove` attempt on the stale socket file with its result,
and the `start_collector` spawn. -/
inductive Event where
  | probe (s : Status)
  | kill (ok : Bool)
  | removeAttempt (ok : Bool)
  | spawn
deriving DecidableEq, Repr

/-- Oracle world for one `_start_collector` run: the outcome of every
external observation the code can make.  `probes k` is the verdict
`collector_status` returns on its k-th call (the outside world evolves
between calls, so successive probes may differ); `pollBudget` is the
number of iterations for which the wall-clock test
`time.time() - start < 1` still succeeds. -/
structure SWorld where
  collectorPresent : Bool
  probes : Nat → Status
  killOk : Bool
  sockets_file : Option String
  socketExists : Bool
  removeOk : Bool
  pollBudget : Nat

/-- The polling loop of `_start_collector` (siso.py:214-219): while the
deadline has not passed, probe; return `True` on `HEALTHY`, otherwise
sleep and retry; return `False` when the deadline expires.  `i` is the
index of the next probe, `fuel` the remaining iterations; the returned
list is the trace of probe events performed. -/
def poll_loop (probes : Nat → Status) : Nat → Nat → Bool × List Event
  | _, 0 => (false, [])
  | i, fuel + 1 =>
    if probes i = Status.HEALTHY then (true, [Event.probe (probes i)])
    else
      let r := poll_loop probes (i + 1) fuel
      (r.1, Event.probe (probes i) :: r.2)

/-- Embedding of `_start_collector` (siso.py:133-219) over an oracle
world, returning the boolean result together with the trace of external
events: presence check; initial probe (index 0); on `HEALTHY` return
`True`; on any verdict other than `HEALTHY` and `DEAD` call
`_kill_collector` and return `False` if it fails; delete a pre-existing
socket file, returning `False` if deletion fails; spawn the collector;
poll (probes 1, 2, …) until `HEALTHY` or the deadline. -/
def _start_collector (w : SWorld) : Bool × List Event :=
  if w.collectorPresent = false then (false, [])
  else
    let s0 := w.probes 0
    if s0 = Status.HEALTHY then (true, [Event.probe s0])
    else if s0 ≠ Status.DEAD ∧ w.killOk = false then
      (false, [Event.probe s0, Event.kill false])
    else
      let pre := Event.probe s0 :: (if s0 ≠ Status.DEAD then [Event.kill true] else [])
      if (w.sockets_file.isSome = true ∧ w.socketExists = true) ∧ w.removeOk = false then
        (false, pre ++ [Event.removeAttempt false])
      else
        let pre2 :=
          pre ++ (if w.sockets_file.isSome = true ∧ w.socketExists = true then
            [Event.removeAttempt true] else [])
        let r := poll_loop w.probes 1 w.pollBudget
        (r.1, pre2 ++ Event.spawn :: r.2)

/-- Classifier for spawn events. -/
def isSpawn : Event → Bool
  | Event.spawn => true
  | _ => false

/-- Classifier for kill events. -/
def isKill : Event → Bool
  | Event.kill _ => true
  | _ => false

/-- Classifier for probe events. -/
def isProbe : Event → Bool
  | Event.probe _ => true
  | _ => false

/-- Number of spawn events in a trace. -/
def countSpawn (t : List Event) : Nat := t.countP isSpawn

/-- Number of kill events in a trace. -/
def countKill (t : List Event) : Nat := t.countP isKill

/-- The part of a trace strictly after the first spawn event (the whole
trace having no spawn yields `[]`). -/
def afterSpawn : List Event → List Event
  | [] => []
  | Event.spawn :: t => t
  | _ :: t => afterSpawn t

/-! ## Definitions: the process reaper -/

/-- Embedding of the candidate selection and termination of
`_kill_collector` (siso.py:93-128): given the PIDs produced by the
process-table query (in query order) and an oracle for whether killing a
given PID succeeds, drop the zero-valued PIDs, return `(false, none)`
when none remain, and otherwise kill exactly the first remaining PID (on
both platform branches), returning the kill result.  The second
component records the PID a termination was attempted on, if any. -/
def _kill_collector (pids : List Int) (killOk : Int → Bool) : Bool × Option Int :=
  let ps := pids.filter (fun p => p != 0)
  match ps with
  | [] => (false, none)
  | pid :: _ => (killOk pid, some pid)

/-- Removal of duplicates keeping the first occurrence of each value,
in order. -/
def dedupFirstAux (seen : List Int) : List Int → List Int
  | [] => []
  | a :: l =>
    if a ∈ seen then dedupFirstAux seen l
    else a :: dedupFirstAux (a :: seen) l

/-- Duplicate removal keeping first occurrences. -/
def dedupFirst (l : List Int) : List Int := dedupFirstAux [] l

/-- The termination-candidate list as the specification words it:
process-table PIDs with zero-valued and duplicate entries filtered out,
in query order. -/
def specReapCandidates (pids : List Int) : List Int :=
  dedupFirst (pids.filter (fun p => p != 0))

/-! ## Definitions: the argument handler -/

/-- Oracle world for one `_handle_collector_args` run: the parsed
`enable_collector` flag, the resolved metrics project
(`_fetch_metrics_project`; the empty string when none), whether
`sys.platform` is darwin or linux, the environment-derived base
directory and user name feeding `_resolve_sockets_folder`, and the
`_start_collector` oracle fields. -/
structure HWorld where
  enable_collector : Bool
  project : String
  isUnix : Bool
  base : String
  user : String
  collectorPresent : Bool
  probes : Nat → Status
  killOk : Bool
  socketExists : Bool
  removeOk : Bool
  pollBudget : Nat

/-- The socket file `_handle_collector_args` derives (siso.py:347-350):
on darwin and linux the resolver-derived truncated path, otherwise
`None`. -/
def socketsFileOpt (w : HWorld) : Option String :=
  if w.isUnix then some (socketsFileFor w.base w.user w.project) else none

/-- The `SWorld` with which `_handle_collector_args` invokes
`_start_collector` (siso.py:352). -/
def collectorWorld (w : HWorld) : SWorld :=
  { collectorPresent := w.collectorPresent, probes := w.probes, killOk := w.killOk,
    sockets_file := socketsFileOpt w, socketExists := w.socketExists,
    removeOk := w.removeOk, pollBudget := w.pollBudget }

/-- The flag removal of the failure branch (siso.py:358-361):
`args.remove` deletes the first occurrence; `"-enable_collector"` is
tried first and `"--enable_collector"` only when the former is absent
(`List.erase` of an absent element is the identity, matching the
fall-through when neither is present). -/
def removeEnableCollector (args : List String) : List String :=
  if args.contains "-enable_collector" then args.erase "-enable_collector"
  else args.erase "--enable_collector"

/-- Embedding of `_handle_collector_args` (siso.py:333-363) over an
oracle world.  Returns the rewritten argument list, whether the sockets
folder was created on disk (`os.makedirs` inside
`_resolve_sockets_folder`, reached exactly when the platform is darwin
or linux), and the `_start_collector` event trace.  Control flow:
return `args` untouched when the `enable_collector` flag is absent or no
project resolves; otherwise derive the socket file, run
`_start_collector`, and on success append the collector address (when
there is a socket file), on failure remove the enable flag and append
`--enable_collector=false`. -/
def _handle_collector_args (w : HWorld) (args : List String) :
    List String × Bool × List Event :=
  if w.enable_collector = false then (args, false, [])
  else if w.project = "" then (args, false, [])
  else
    let res := _start_collector (collectorWorld w)
    if res.1 then
      (match socketsFileOpt w with
        | some f => args ++ ["--collector_address=unix://" ++ f]
        | none => args,
       w.isUnix, res.2)
    else
      (removeEnableCollector args ++ ["--enable_collector=false"], w.isUnix, res.2)

/-! ## Definitions: concrete inputs used in the theorems -/

/-- A user name 89 characters long: the fallback path
(slash tmp, user, siso) is then 99 characters, so even the recomputed
fallback allowed length is negative. -/
def longUser : String :=
  "uuuuuuuuuuuuuuuuuuuuuuuuuuuuuuuuuuuuuuuuuuuuuuuuuuuuuuuuuuuuuuuuuuuuuuuuuuuuuuuuuuuuuuuuu"

/-- A base-directory path 100 characters long, forcing the `/tmp`
fallback of `_resolve_sockets_folder`. -/
def longBase : String :=
  "aaaaaaaaaaaaaaaaaaaaaaaaaaaaaaaaaaaaaaaaaaaaaaaaaaaaaaaaaaaaaaaaaaaaaaaaaaaaaaaaaaaaaaaaaaaaaaaaaaaa"

/-- World refuting C2: the collector sub-command is present, the initial
probe is `DEAD` (so no reap), no socket file, and every polling probe
returns `WRONG_ENDPOINT` with three iterations of budget left. -/
def w2 : SWorld :=
  { collectorPresent := true,
    probes := fun i => if i = 0 then Status.DEAD else Status.WRONG_ENDPOINT,
    killOk := true, sockets_file := none, socketExists := false, removeOk := true,
    pollBudget := 3 }

/-- World refuting C5: collector present, initial probe `DEAD`, a stale
socket file exists and its removal fails. -/
def w5 : SWorld :=
  { collectorPresent := true, probes := fun _ => Status.DEAD, killOk := true,
    sockets_file := some "/tmp/u/siso/p.sock", socketExists := true, removeOk := false,
    pollBudget := 5 }

/-- World witnessing C6: something responds but is unhealthy, and the
reaper fails. -/
def w6 : SWorld :=
  { collectorPresent := true, probes := fun _ => Status.UNHEALTHY, killOk := false,
    sockets_file := none, socketExists := false, removeOk := true, pollBudget := 4 }

/-- Skip world for C9: the `enable_collector` flag is absent. -/
def w9a : HWorld :=
  { enable_collector := false, project := "p", isUnix := true, base := "/tmp",
    user := "u", collectorPresent := true, probes := fun _ => Status.HEALTHY,
    killOk := true, socketExists := false, removeOk := true, pollBudget := 1 }

/-- Skip world for C9: no project identifier resolves. -/
def w9b : HWorld :=
  { enable_collector := true, project := "", isUnix := true, base := "/tmp",
    user := "u", collectorPresent := true, probes := fun _ => Status.HEALTHY,
    killOk := true, socketExists := false, removeOk := true, pollBudget := 1 }

/-- Skip world for C9: the collector sub-command is unsupported by the
located executor (everything else enabled, on linux). -/
def w9 : HWorld :=
  { enable_collector := true, project := "p", isUnix := true, base := "/tmp",
    user := "u", collectorPresent := false, probes := fun _ => Status.HEALTHY,
    killOk := true, socketExists := false, removeOk := true, pollBudget := 1 }

/-- Failure world for the C10 witness (collector sub-command absent). -/
def w10a : HWorld :=
  { enable_collector := true, project := "proj", isUnix := true, base := "/tmp",
    user := "u", collectorPresent := false, probes := fun _ => Status.HEALTHY,
    killOk := true, socketExists := false, removeOk := true, pollBudget := 1 }

/-- Success world for the C10 witness (already healthy). -/
def w10b : HWorld :=
  { enable_collector := true, project := "proj", isUnix := true, base := "/tmp",
    user := "u", collectorPresent := true, probes := fun _ => Status.HEALTHY,
    killOk := true, socketExists := false, removeOk := true, pollBudget := 1 }

/-! ## Sanity evaluations of the embedding -/

example : pySliceTo "project" 3 = "pro" := by decide

example : pySliceTo "p" (-1) = "" := by decide

example : (socketsFileFor "/tmp" "u" "proj").length = 21 := by decide

example : collector_status (.resp 200 true "StatusOK") "127.0.0.1:4317" none =
    Status.HEALTHY := by decide

example :
    _start_collector
      { collectorPresent := true, probes := fun _ => Status.HEALTHY, killOk := true,
        sockets_file := none, socketExists := false, removeOk := true, pollBudget := 3 } =
    (true, [Event.probe Status.HEALTHY]) := by decide

example :
    _start_collector
      { collectorPresent := true, probes := fun _ => Status.UNHEALTHY, killOk := true,
        sockets_file := some "/tmp/u/siso/p.sock", socketExists := true, removeOk := true,
        pollBudget := 1 } =
    (false, [Event.probe Status.UNHEALTHY, Event.kill true, Event.removeAttempt true,
             Event.spawn, Event.probe Status.UNHEALTHY]) := by decide

example : _kill_collector [0, 5, 5, 3] (fun _ => true) = (true, some 5) := by decide

example : specReapCandidates [0, 5, 5, 3] = [5, 3] := by decide

example :
    _handle_collector_args
      { enable_collector := true, project := "proj", isUnix := true, base := "/tmp",
        user := "u", collectorPresent := true, probes := fun _ => Status.HEALTHY,
        killOk := true, socketExists := false, removeOk := true, pollBudget := 3 }
      ["ninja", "--enable_collector"] =
    (["ninja", "--enable_collector", "--collector_address=unix:///tmp/u/siso/proj.sock"],
     true, [Event.probe Status.HEALTHY]) := by decide

example : longUser.length = 89 := by decide

example : longBase.length = 100 := by decide

/-! ## Helper lemmas -/

theorem resolve_allowed (base user : String) :
    (_resolve_sockets_folder base user).2 =
      104 - ((_resolve_sockets_folder base user).1.length : Int) - 6 := by
  by_cases h : (104 - ((pyJoin (pyJoin base user) "siso").length : Int) - 6) < 1 <;>
    simp [_resolve_sockets_folder, h]

theorem string_length_append (s t : String) : (s ++ t).length = s.length + t.length := by
  cases s with
  | mk a => cases t with
    | mk b => simp [String.length, String.append]

theorem pyJoin_length (a b : String) : (pyJoin a b).length = a.length + 1 + b.length := by
  have h1 : String.length "/" = 1 := rfl
  simp [pyJoin, string_length_append, h1]

theorem pySliceTo_length_le (s : String) (k : Int) (h : 0 ≤ k) :
    ((pySliceTo s k).length : Int) ≤ k := by
  have h1 : (pySliceTo s k).length = min k.toNat s.data.length := by
    simp only [pySliceTo, if_pos h]
    exact List.length_take _ _
  have h2 : (k.toNat : Int) = k := Int.toNat_of_nonneg h
  omega

theorem poll_loop_all_probe (probes : Nat → Status) :
    ∀ fuel i, ((poll_loop probes i fuel).2.all isProbe) = true := by
  intro fuel
  induction fuel with
  | zero => intro i; rfl
  | succ n ih =>
    intro i
    simp only [poll_loop]
    split
    · rfl
    · simpa [isProbe] using ih (i + 1)

theorem poll_loop_countSpawn (probes : Nat → Status) :
    ∀ fuel i, countSpawn (poll_loop probes i fuel).2 = 0 := by
  intro fuel
  induction fuel with
  | zero => intro i; rfl
  | succ n ih =>
    intro i
    simp only [poll_loop]
    split
    · rfl
    · simpa [countSpawn, List.countP_cons, isSpawn] using ih (i + 1)

theorem poll_loop_countKill (probes : Nat → Status) :
    ∀ fuel i, countKill (poll_loop probes i fuel).2 = 0 := by
  intro fuel
  induction fuel with
  | zero => intro i; rfl
  | succ n ih =>
    intro i
    simp only [poll_loop]
    split
    · rfl
    · simpa [countKill, List.countP_cons, isKill] using ih (i + 1)

theorem probe_not_kill {e : Event} (h : isProbe e = true) : isKill e = false := by
  cases e <;> simp [isProbe, isKill] at *

theorem probe_not_spawn {e : Event} (h : isProbe e = true) : isSpawn e = false := by
  cases e <;> simp [isProbe, isSpawn] at *

theorem poll_loop_isKill_false (probes : Nat → Status) (fuel i : Nat) :
    ∀ e ∈ (poll_loop probes i fuel).2, isKill e = false := by
  intro e he
  have hall := poll_loop_all_probe probes fuel i
  rw [List.all_eq_true] at hall
  exact probe_not_kill (hall e he)

theorem poll_loop_isSpawn_false (probes : Nat → Status) (fuel i : Nat) :
    ∀ e ∈ (poll_loop probes i fuel).2, isSpawn e = false := by
  intro e he
  have hall := poll_loop_all_probe probes fuel i
  rw [List.all_eq_true] at hall
  exact probe_not_spawn (hall e he)

theorem afterSpawn_append_spawn (l1 l2 : List Event) (h : countSpawn l1 = 0) :
    afterSpawn (l1 ++ Event.spawn :: l2) = l2 := by
  induction l1 with
  | nil => rfl
  | cons a t ih =>
    have ha : isSpawn a = false ∧ countSpawn t = 0 := by
      by_cases hs : isSpawn a = true <;>
        simp_all [countSpawn, List.countP_cons]
    cases a with
    | probe s => simpa [afterSpawn] using ih ha.2
    | kill ok => simpa [afterSpawn] using ih ha.2
    | removeAttempt ok => simpa [afterSpawn] using ih ha.2
    | spawn => simp [isSpawn] at ha

theorem dedupFirst_cons (a : Int) (t : List Int) :
    dedupFirst (a :: t) = a :: dedupFirstAux [a] t := by
  simp [dedupFirst, dedupFirstAux]

/-! ## Branch equations for the supervisor -/

theorem sc_absent (w : SWorld) (h : w.collectorPresent = false) :
    _start_collector w = (false, []) := by
  simp [_start_collector, h]

theorem sc_healthy (w : SWorld) (h : w.collectorPresent = true)
    (h0 : w.probes 0 = Status.HEALTHY) :
    _start_collector w = (true, [Event.probe Status.HEALTHY]) := by
  simp [_start_collector, h, h0]

theorem sc_killfail (w : SWorld) (h : w.collectorPresent = true)
    (h0 : w.probes 0 ≠ Status.HEALTHY) (hd : w.probes 0 ≠ Status.DEAD)
    (hk : w.killOk = false) :
    _start_collector w = (false, [Event.probe (w.probes 0), Event.kill false]) := by
  simp [_start_collector, h, h0, hd, hk]

theorem sc_removefail (w : SWorld) (h : w.collectorPresent = true)
    (h0 : w.probes 0 ≠ Status.HEALTHY)
    (hk : w.probes 0 = Status.DEAD ∨ w.killOk = true)
    (hsf : w.sockets_file.isSome = true) (hx : w.socketExists = true)
    (hro : w.removeOk = false) :
    _start_collector w =
      (false, Event.probe (w.probes 0) ::
        (if w.probes 0 ≠ Status.DEAD then [Event.kill true] else []) ++
          [Event.removeAttempt false]) := by
  rcases hk with hk | hk
  · simp [_start_collector, h, h0, hk, hsf, hx, hro]
  · by_cases hd : w.probes 0 = Status.DEAD <;>
      simp [_start_collector, h, h0, hk, hd, hsf, hx, hro]

theorem sc_spawn (w : SWorld) (h : w.collectorPresent = true)
    (h0 : w.probes 0 ≠ Status.HEALTHY)
    (hk : w.probes 0 = Status.DEAD ∨ w.killOk = true)
    (hcl : ¬ (w.sockets_file.isSome = true ∧ w.socketExists = true) ∨ w.removeOk = true) :
    _start_collector w =
      ((poll_loop w.probes 1 w.pollBudget).1,
        (Event.probe (w.probes 0) ::
          (if w.probes 0 ≠ Status.DEAD then [Event.kill true] else [])) ++
          (if w.sockets_file.isSome = true ∧ w.socketExists = true then
            [Event.removeAttempt true] else []) ++
          Event.spawn :: (poll_loop w.probes 1 w.pollBudget).2) := by
  have hnot : ¬ ((w.sockets_file.isSome = true ∧ w.socketExists = true) ∧
      w.removeOk = false) := by
    rcases hcl with hcl | hcl
    · exact fun hc => hcl hc.1
    · exact fun hc => by simp [hcl] at hc
  rcases hk with hk | hk
  · simp [_start_collector, h, h0, hk, hnot]
  · by_cases hd : w.probes 0 = Status.DEAD <;>
      simp [_start_collector, h, h0, hk, hd, hnot]

/-! ## C1 — socket-path length budget -/

/-- C1, counterexample.  The claim asserts the derived socket path never
exceeds 104 bytes and that the fallback base (slash tmp, user, siso)
always stays within the budget.  With an 89-character user name the
natural path (99 characters) makes the allowed length `-1 < 1`, the
fallback is taken, but the fallback path is itself 99 characters, its
recomputed allowed length is still `-1`, and the derived socket file is
105 characters — over budget. -/
theorem C1_counterexample :
    (104 - ((pyJoin (pyJoin "/tmp" longUser) "siso").length : Int) - 6 < 1) ∧
    ¬ (socketsFileFor "/tmp" longUser "p").length ≤ 104 := by
  constructor
  · decide
  · decide

/-- C1, amended.  Whenever the allowed length actually returned by
`_resolve_sockets_folder` is at least 1 (which holds in the natural case
and in the fallback case except for user names of 88 characters or
more), the derived socket path is within the 104-byte budget; and
whenever the naturally derived allowed length is below 1 the fallback
base (slash tmp, user, siso) is used. -/
theorem C1_amended (base user project : String) :
    (1 ≤ (_resolve_sockets_folder base user).2 →
      (socketsFileFor base user project).length ≤ 104) ∧
    (104 - ((pyJoin (pyJoin base user) "siso").length : Int) - 6 < 1 →
      (_resolve_sockets_folder base user).1 = pyJoin (pyJoin "/tmp" user) "siso") := by
  constructor
  · intro h
    have hA := resolve_allowed base user
    have hlen : (socketsFileFor base user project).length =
        (_resolve_sockets_folder base user).1.length + 1 +
          ((pySliceTo project (_resolve_sockets_folder base user).2).length + 5) := by
      have h5 : String.length ".sock" = 5 := rfl
      simp [socketsFileFor, pyJoin_length, string_length_append, h5]
    have ht : ((pySliceTo project (_resolve_sockets_folder base user).2).length : Int) ≤
        (_resolve_sockets_folder base user).2 :=
      pySliceTo_length_le _ _ (by omega)
    omega
  · intro h
    simp [_resolve_sockets_folder, h]

/-- C1, witness: a 100-character base directory forces the fallback, the
recomputed fallback allowed length is 87, at least 1, and the derived
socket path is within budget. -/
theorem C1_witness :
    (socketsFileFor longBase "u" "proj").length ≤ 104 ∧
    (_resolve_sockets_folder longBase "u").1 = pyJoin (pyJoin "/tmp" "u") "siso" :=
  ⟨(C1_amended longBase "u" "proj").1 (by decide),
   (C1_amended longBase "u" "proj").2 (by decide)⟩

/-! ## C2 — WrongEndpoint during polling does not halt the loop -/

/-- C2, counterexample.  The claim says a WrongEndpoint verdict during
polling causes the loop to perform no further probe iterations and to
return immediately.  In `w2` the first polling probe already returns
`WRONG_ENDPOINT`, yet the trace shows two further polling probes were
performed (three in all) before the deadline ended the loop. -/
theorem C2_counterexample :
    _start_collector w2 =
      (false, [Event.probe Status.DEAD, Event.spawn, Event.probe Status.WRONG_ENDPOINT,
               Event.probe Status.WRONG_ENDPOINT, Event.probe Status.WRONG_ENDPOINT]) := by
  decide

/-- C2, amended.  A `WRONG_ENDPOINT` verdict does not stop the polling
loop: the loop exits early only on `HEALTHY`, so after observing
`WRONG_ENDPOINT` (with budget remaining) it performs exactly one more
recursive round of polling, and only deadline expiry produces the failed
outcome. -/
theorem C2_amended (probes : Nat → Status) (i fuel : Nat)
    (h : probes i = Status.WRONG_ENDPOINT) :
    poll_loop probes i (fuel + 1) =
      ((poll_loop probes (i + 1) fuel).1,
        Event.probe Status.WRONG_ENDPOINT :: (poll_loop probes (i + 1) fuel).2) := by
  simp [poll_loop, h]

/-- C2, witness: all-WrongEndpoint probes with budget 3 at poll
index 1. -/
theorem C2_witness :
    poll_loop (fun _ => Status.WRONG_ENDPOINT) 1 3 =
      ((poll_loop (fun _ => Status.WRONG_ENDPOINT) 2 2).1,
        Event.probe Status.WRONG_ENDPOINT ::
          (poll_loop (fun _ => Status.WRONG_ENDPOINT) 2 2).2) :=
  C2_amended (fun _ => Status.WRONG_ENDPOINT) 1 2 rfl

/-! ## C3 — no MissingSocketFile verdict, no disk check -/

/-- C3.  At the failing input — the status response is 200 with
`healthy` true and `"StatusOK"`, the configured receiver endpoint
matches the expected local-socket path, and the socket file is absent on
disk (the classification takes no disk-state input at all, so this
evaluation holds whatever the disk contains) — `collector_status`
returns `HEALTHY`.  The claimed MissingSocketFile verdict does not
exist: `Status` has only `HEALTHY`, `WRONG_ENDPOINT`, `UNHEALTHY` and
`DEAD`, and no step of `collector_status` consults the filesystem. -/
theorem C3_thm :
    collector_status (HealthResp.resp 200 true "StatusOK") "/tmp/u/siso/p.sock"
      (some "/tmp/u/siso/p.sock") = Status.HEALTHY := by
  decide

/-! ## C4 — endpoint comparison is exact equality, not suffix match -/

/-- C4, counterexample.  The claim says an actual endpoint equal to the
expected endpoint minus a `unix://` prefix is accepted as matching.  In
the code the comparison is plain inequality: with expected
`unix:///a.sock` and actual `/a.sock` (healthy 200 status),
classification yields `WRONG_ENDPOINT`, not a match. -/
theorem C4_counterexample :
    collector_status (HealthResp.resp 200 true "StatusOK") "/a.sock"
      (some "unix:///a.sock") = Status.WRONG_ENDPOINT := by
  decide

/-- C4, amended.  Once the status response is healthy (200, `healthy`,
`"StatusOK"`), the verdict is decided by exact string equality between
the reported receiver endpoint and `sockets_file or
_OTLP_DEFAULT_TCP_ENDPOINT`: equal yields `HEALTHY`, any difference —
including a missing `unix://` scheme prefix — yields `WRONG_ENDPOINT`.
No suffix-containment comparison is performed. -/
theorem C4_amended (receiverEndpoint : String) (sockets_file : Option String) :
    collector_status (HealthResp.resp 200 true "StatusOK") receiverEndpoint sockets_file =
      (if receiverEndpoint = pyOrStr sockets_file _OTLP_DEFAULT_TCP_ENDPOINT then
        Status.HEALTHY else Status.WRONG_ENDPOINT) := by
  by_cases h : receiverEndpoint = pyOrStr sockets_file _OTLP_DEFAULT_TCP_ENDPOINT <;>
    simp [collector_status, h]

/-! ## C5 — socket-file deletion failure is fatal, not cosmetic -/

/-- C5, counterexample.  The claim says a failed deletion of the stale
socket file is non-fatal and the attempt still spawns and polls.  In
`w5` the deletion fails and `_start_collector` returns the failed
outcome at once: the trace ends at the failed remove attempt — no spawn,
no polling. -/
theorem C5_counterexample :
    _start_collector w5 = (false, [Event.probe Status.DEAD, Event.removeAttempt false]) := by
  decide

/-- C5, amended.  When a stale socket file exists and its deletion
fails, the failure is reported and is fatal to the attempt: the
supervisor returns the failed (no-endpoint) outcome, the spawn primitive
is never invoked, and the trace records the failed remove attempt. -/
theorem C5_amended (w : SWorld) (hp : w.collectorPresent = true)
    (h0 : w.probes 0 ≠ Status.HEALTHY)
    (hk : w.probes 0 = Status.DEAD ∨ w.killOk = true)
    (hsf : w.sockets_file.isSome = true) (hx : w.socketExists = true)
    (hro : w.removeOk = false) :
    (_start_collector w).1 = false ∧ countSpawn (_start_collector w).2 = 0 ∧
      Event.removeAttempt false ∈ (_start_collector w).2 := by
  rw [sc_removefail w hp h0 hk hsf hx hro]
  refine ⟨rfl, ?_, ?_⟩
  · by_cases hd : w.probes 0 = Status.DEAD <;>
      simp [hd, countSpawn, List.countP_cons, List.countP_append, isSpawn]
  · by_cases hd : w.probes 0 = Status.DEAD <;> simp [hd]

/-- C5, witness: `C5_amended` applied at `w5`. -/
theorem C5_witness :
    (_start_collector w5).1 = false ∧ countSpawn (_start_collector w5).2 = 0 ∧
      Event.removeAttempt false ∈ (_start_collector w5).2 :=
  C5_amended w5 rfl (by decide) (Or.inl rfl) rfl rfl rfl

/-! ## C6 — reaping exactly when the initial verdict is neither Healthy nor Dead -/

/-- C6.  Given the collector sub-command is present (so an initial probe
happens at all): the trace contains a `_kill_collector` invocation
exactly when the initial verdict is neither `HEALTHY` nor `DEAD` (one
invocation, never more); and when such a verdict is observed and the
reaper fails, the supervisor returns the failed (no-endpoint) outcome at
once — the trace stops at the failed kill, with no spawn. -/
theorem C6_thm (w : SWorld) (hp : w.collectorPresent = true) :
    (countKill (_start_collector w).2 =
      if w.probes 0 ≠ Status.HEALTHY ∧ w.probes 0 ≠ Status.DEAD then 1 else 0) ∧
    (w.probes 0 ≠ Status.HEALTHY → w.probes 0 ≠ Status.DEAD → w.killOk = false →
      _start_collector w = (false, [Event.probe (w.probes 0), Event.kill false])) := by
  constructor
  · by_cases h0 : w.probes 0 = Status.HEALTHY
    · rw [sc_healthy w hp h0]
      simp [h0, countKill, List.countP_cons, isKill]
    · have hkOr : w.probes 0 = Status.DEAD ∨ w.killOk = true ∨
          (w.probes 0 ≠ Status.DEAD ∧ w.killOk = false) := by
        by_cases hd : w.probes 0 = Status.DEAD
        · exact Or.inl hd
        · cases hk : w.killOk
          · exact Or.inr (Or.inr ⟨hd, rfl⟩)
          · exact Or.inr (Or.inl rfl)
      rcases hkOr with hd | hk | ⟨hd, hk⟩
      · by_cases hc : (w.sockets_file.isSome = true ∧ w.socketExists = true) ∧
            w.removeOk = false
        · rw [sc_removefail w hp h0 (Or.inl hd) hc.1.1 hc.1.2 hc.2]
          simp [h0, hd, countKill, List.countP_cons, List.countP_append, isKill]
        · have hcl : ¬ (w.sockets_file.isSome = true ∧ w.socketExists = true) ∨
              w.removeOk = true := by
            by_cases ha : w.sockets_file.isSome = true ∧ w.socketExists = true
            · cases hro : w.removeOk
              · exact absurd ⟨ha, hro⟩ hc
              · exact Or.inr rfl
            · exact Or.inl ha
          rw [sc_spawn w hp h0 (Or.inl hd) hcl]
          by_cases ha : w.sockets_file.isSome = true ∧ w.socketExists = true <;>
            simp [h0, hd, ha, countKill, List.countP_cons, List.countP_append, isKill] <;>
            exact poll_loop_isKill_false w.probes w.pollBudget 1
      · by_cases hc : (w.sockets_file.isSome = true ∧ w.socketExists = true) ∧
            w.removeOk = false
        · rw [sc_removefail w hp h0 (Or.inr hk) hc.1.1 hc.1.2 hc.2]
          by_cases hd : w.probes 0 = Status.DEAD <;>
            simp [h0, hd, countKill, List.countP_cons, List.countP_append, isKill]
        · have hcl : ¬ (w.sockets_file.isSome = true ∧ w.socketExists = true) ∨
              w.removeOk = true := by
            by_cases ha : w.sockets_file.isSome = true ∧ w.socketExists = true
            · cases hro : w.removeOk
              · exact absurd ⟨ha, hro⟩ hc
              · exact Or.inr rfl
            · exact Or.inl ha
          rw [sc_spawn w hp h0 (Or.inr hk) hcl]
          by_cases hd : w.probes 0 = Status.DEAD <;>
            by_cases ha : w.sockets_file.isSome = true ∧ w.socketExists = true <;>
              simp [h0, hd, ha, countKill, List.countP_cons, List.countP_append, isKill] <;>
              exact poll_loop_isKill_false w.probes w.pollBudget 1
      · rw [sc_killfail w hp h0 hd hk]
        simp [h0, hd, countKill, List.countP_cons, isKill]
  · intro h0 hd hk
    exact sc_killfail w hp h0 hd hk

/-- C6, witness: `C6_thm` applied at `w6`. -/
theorem C6_witness :
    (countKill (_start_collector w6).2 =
      if w6.probes 0 ≠ Status.HEALTHY ∧ w6.probes 0 ≠ Status.DEAD then 1 else 0) ∧
    _start_collector w6 = (false, [Event.probe (w6.probes 0), Event.kill false]) :=
  ⟨(C6_thm w6 rfl).1, (C6_thm w6 rfl).2 (by decide) (by decide) rfl⟩

/-! ## C7 — spawn at most once, and only before polling -/

/-- C7.  In every run of `_start_collector` — whatever the initial
verdict, the oracle outcomes, and the polling budget — the spawn
primitive appears at most once in the trace, and every event after the
(first) spawn is a polling health probe: the spawn, when it happens,
precedes the polling loop and is never repeated inside it. -/
theorem C7_thm (w : SWorld) :
    countSpawn (_start_collector w).2 ≤ 1 ∧
    ((afterSpawn (_start_collector w).2).all isProbe) = true := by
  by_cases hp : w.collectorPresent = true
  · by_cases h0 : w.probes 0 = Status.HEALTHY
    · rw [sc_healthy w hp h0]
      exact ⟨by simp [countSpawn, List.countP_cons, isSpawn], rfl⟩
    · have main : w.probes 0 = Status.DEAD ∨ w.killOk = true →
          countSpawn (_start_collector w).2 ≤ 1 ∧
          ((afterSpawn (_start_collector w).2).all isProbe) = true := by
        intro hk
        by_cases hc : (w.sockets_file.isSome = true ∧ w.socketExists = true) ∧
            w.removeOk = false
        · rw [sc_removefail w hp h0 hk hc.1.1 hc.1.2 hc.2]
          constructor
          · by_cases hd : w.probes 0 = Status.DEAD <;>
              simp [hd, countSpawn, List.countP_cons, List.countP_append, isSpawn]
          · by_cases hd : w.probes 0 = Status.DEAD <;> simp [hd, afterSpawn]
        · have hcl : ¬ (w.sockets_file.isSome = true ∧ w.socketExists = true) ∨
              w.removeOk = true := by
            by_cases ha : w.sockets_file.isSome = true ∧ w.socketExists = true
            · cases hro : w.removeOk
              · exact absurd ⟨ha, hro⟩ hc
              · exact Or.inr rfl
            · exact Or.inl ha
          have h2 : (_start_collector w).2 =
              (Event.probe (w.probes 0) ::
                (if w.probes 0 ≠ Status.DEAD then [Event.kill true] else [])) ++
                (if w.sockets_file.isSome = true ∧ w.socketExists = true then
                  [Event.removeAttempt true] else []) ++
                Event.spawn :: (poll_loop w.probes 1 w.pollBudget).2 := by
            rw [sc_spawn w hp h0 hk hcl]
          have hpoll : (poll_loop w.probes 1 w.pollBudget).2.countP isSpawn = 0 :=
            poll_loop_countSpawn w.probes w.pollBudget 1
          have hall : ((poll_loop w.probes 1 w.pollBudget).2.all isProbe) = true :=
            poll_loop_all_probe w.probes w.pollBudget 1
          constructor
          · rw [h2]
            by_cases hd : w.probes 0 = Status.DEAD <;>
              by_cases ha : w.sockets_file.isSome = true ∧ w.socketExists = true <;>
                simp [hd, ha, countSpawn, List.countP_cons, List.countP_append, isSpawn,
                  hpoll]
          · rw [h2, afterSpawn_append_spawn]
            · exact hall
            · by_cases hd : w.probes 0 = Status.DEAD <;>
                by_cases ha : w.sockets_file.isSome = true ∧ w.socketExists = true <;>
                  simp [hd, ha, countSpawn, List.countP_cons, List.countP_append, isSpawn]
      by_cases hd : w.probes 0 = Status.DEAD
      · exact main (Or.inl hd)
      · cases hk : w.killOk
        · rw [sc_killfail w hp h0 hd hk]
          exact ⟨by simp [countSpawn, List.countP_cons, isSpawn], by simp [afterSpawn]⟩
        · exact main (Or.inr hk)
  · have hp2 : w.collectorPresent = false := by
      cases h : w.collectorPresent
      · rfl
      · exact absurd h hp
    rw [sc_absent w hp2]
    exact ⟨by simp [countSpawn], rfl⟩

/-! ## C8 — PID filtering and first-candidate termination -/

/-- C8.  The PID the reaper attempts to terminate is exactly the head of
the candidate list as the specification words it — the query-order PIDs
with zero-valued and duplicate entries removed (removing duplicates
keeps the first occurrence, so it cannot change the head) — and when no
candidates remain the reaper returns `false` without attempting any
termination. -/
theorem C8_thm (pids : List Int) (killOk : Int → Bool) :
    ((_kill_collector pids killOk).2 = (specReapCandidates pids).head?) ∧
    (specReapCandidates pids = [] → _kill_collector pids killOk = (false, none)) := by
  rcases hl : pids.filter (fun p => p != 0) with _ | ⟨a, t⟩
  · constructor
    · simp [_kill_collector, hl, specReapCandidates, dedupFirst, dedupFirstAux]
    · intro _
      simp [_kill_collector, hl]
  · constructor
    · simp [_kill_collector, hl, specReapCandidates, dedupFirst_cons]
    · intro hspec
      rw [specReapCandidates, hl, dedupFirst_cons] at hspec
      exact absurd hspec (List.cons_ne_nil _ _)

/-- C8, witness: `C8_thm` at a query returning only a zero PID. -/
theorem C8_witness :
    (_kill_collector [0] (fun _ => true)).2 = (specReapCandidates [0]).head? ∧
    _kill_collector [0] (fun _ => true) = (false, none) :=
  ⟨(C8_thm [0] (fun _ => true)).1, (C8_thm [0] (fun _ => true)).2 (by decide)⟩

/-! ## C9 — what the skip outcomes touch -/

/-- C9, counterexample.  The claim says every skip outcome touches no
process or socket state.  In `w9` the skip is taken because the
collector sub-command is unsupported, and indeed no process is probed,
reaped or spawned and no socket file is touched (empty event trace) —
but the sockets directory has already been created: `os.makedirs` runs
inside `_resolve_sockets_folder` (siso.py:329), which
`_handle_collector_args` reaches before `_start_collector` can notice
the missing sub-command, so the directory-created flag is `true`. -/
theorem C9_counterexample :
    _handle_collector_args w9 ["ninja"] =
      (["ninja", "--enable_collector=false"], true, []) := by
  decide

/-- C9, amended.  The disabled-collector and no-project skips return the
arguments untouched with no directory creation and an empty event trace;
the unsupported-sub-command skip performs no probe, reap, spawn or
socket-file operation (empty trace), but the sockets directory has
already been created whenever the platform is darwin or linux. -/
theorem C9_amended (w : HWorld) (args : List String) :
    (w.enable_collector = false → _handle_collector_args w args = (args, false, [])) ∧
    (w.project = "" → _handle_collector_args w args = (args, false, [])) ∧
    (w.enable_collector = true → w.project ≠ "" → w.collectorPresent = false →
      (_handle_collector_args w args).2.2 = [] ∧
      (_handle_collector_args w args).2.1 = w.isUnix) := by
  refine ⟨?_, ?_, ?_⟩
  · intro h
    simp [_handle_collector_args, h]
  · intro h
    by_cases he : w.enable_collector = false <;> simp [_handle_collector_args, he, h]
  · intro he hpj hcp
    have hs : _start_collector (collectorWorld w) = (false, []) :=
      sc_absent (collectorWorld w) (by simp [collectorWorld, hcp])
    simp [_handle_collector_args, he, hpj, hs]

/-- C9, witness: the three skip shapes at concrete worlds. -/
theorem C9_witness :
    _handle_collector_args w9a ["ninja"] = (["ninja"], false, []) ∧
    _handle_collector_args w9b ["ninja"] = (["ninja"], false, []) ∧
    ((_handle_collector_args w9 ["ninja"]).2.2 = [] ∧
      (_handle_collector_args w9 ["ninja"]).2.1 = w9.isUnix) :=
  ⟨(C9_amended w9a ["ninja"]).1 rfl, (C9_amended w9b ["ninja"]).2.1 rfl,
   (C9_amended w9 ["ninja"]).2.2 rfl (by decide) rfl⟩

/-! ## C10 — argument rewriting on failure and success -/

/-- C10.  With the `enable_collector` flag present and a project
resolved: when supervision fails, the handler removes the
`-enable_collector` or `--enable_collector` flag (first occurrence, the
single-dash spelling first) and appends `--enable_collector=false`; when
supervision succeeds on a platform with a socket file, it appends the
`unix://`-prefixed collector address and removes nothing. -/
theorem C10_thm (w : HWorld) (args : List String) (he : w.enable_collector = true)
    (hpj : w.project ≠ "") :
    ((_start_collector (collectorWorld w)).1 = false →
      _handle_collector_args w args =
        (removeEnableCollector args ++ ["--enable_collector=false"], w.isUnix,
          (_start_collector (collectorWorld w)).2)) ∧
    ((_start_collector (collectorWorld w)).1 = true → w.isUnix = true →
      _handle_collector_args w args =
        (args ++ ["--collector_address=unix://" ++ socketsFileFor w.base w.user w.project],
          w.isUnix, (_start_collector (collectorWorld w)).2)) := by
  constructor
  · intro h
    simp [_handle_collector_args, he, hpj, h]
  · intro h hu
    simp [_handle_collector_args, he, hpj, h, socketsFileOpt, hu]

/-- C10, witness: `C10_thm` at a failing and at a succeeding world. -/
theorem C10_witness :
    _handle_collector_args w10a ["ninja", "--enable_collector"] =
      (removeEnableCollector ["ninja", "--enable_collector"] ++ ["--enable_collector=false"],
        w10a.isUnix, (_start_collector (collectorWorld w10a)).2) ∧
    _handle_collector_args w10b ["ninja", "--enable_collector"] =
      (["ninja", "--enable_collector"] ++
          ["--collector_address=unix://" ++ socketsFileFor w10b.base w10b.user w10b.project],
        w10b.isUnix, (_start_collector (collectorWorld w10b)).2) :=
  ⟨(C10_thm w10a ["ninja", "--enable_collector"] rfl (by decide)).1 (by decide),
   (C10_thm w10b ["ninja", "--enable_collector"] rfl (by decide)).2 (by decide) rfl⟩
